import Mathlib

/-!
Shallow embedding of `src/lib.rs` of pam_rc2022: a PAM module that relays a
login notification to a Discord webhook at session-open and is inert at the
five other lifecycle hooks.

The host framework (libpam) and the HTTP transport (curl) are external
collaborators.  They are modelled as explicit environments:

* `Host` gives, for each item type, the result code `pam_get_item` returns and
  the attribute the host writes through the out-pointer (`none` models a null
  pointer; `some s` models a non-null pointer to a C string whose permissive
  lossy UTF-8 decoding is `s` — `CStr::to_string_lossy` is total, so the model
  carries the decoded text directly).  `promptCode` gives the result code
  `pam_prompt` returns for a given message.
* `Net` gives the outcome of the single curl transfer: whether the setup calls
  (`url`, `http_headers`, `httppost`) succeed, and what `perform` /
  `response_code` yield.

Side effects visible to the outside (host conversation callbacks and the
outbound HTTP request) are recorded in an event trace returned alongside the
result, so that statements such as "no network call is attempted" or "exactly
one diagnostic is emitted" are expressible.
-/

/-- All of the PAM result codes, mirroring the `PamResultCode` enum
(discriminants 0..31). -/
inductive PamResultCode where
  | PAM_SUCCESS
  | PAM_OPEN_ERR
  | PAM_SYMBOL_ERR
  | PAM_SERVICE_ERR
  | PAM_SYSTEM_ERR
  | PAM_BUF_ERR
  | PAM_PERM_DENIED
  | PAM_AUTH_ERR
  | PAM_CRED_INSUFFICIENT
  | PAM_AUTHINFO_UNAVAIL
  | PAM_USER_UNKNOWN
  | PAM_MAXTRIES
  | PAM_NEW_AUTHTOK_REQD
  | PAM_ACCT_EXPIRED
  | PAM_SESSION_ERR
  | PAM_CRED_UNAVAIL
  | PAM_CRED_EXPIRED
  | PAM_CRED_ERR
  | PAM_NO_MODULE_DATA
  | PAM_CONV_ERR
  | PAM_AUTHTOK_ERR
  | PAM_AUTHTOK_RECOVERY_ERR
  | PAM_AUTHTOK_LOCK_BUSY
  | PAM_AUTHTOK_DISABLE_AGING
  | PAM_TRY_AGAIN
  | PAM_IGNORE
  | PAM_ABORT
  | PAM_AUTHTOK_EXPIRED
  | PAM_MODULE_UNKNOWN
  | PAM_BAD_ITEM
  | PAM_CONV_AGAIN
  | PAM_INCOMPLETE
  deriving DecidableEq, Repr

/-- `pub type PamResult<T> = Result<T, PamResultCode>` -/
abbrev PamResult (α : Type) := Except PamResultCode α

/-- PAM message styles, mirroring the `MessageStyle` enum. -/
inductive MessageStyle where
  | PAM_PROMPT_ECHO_OFF
  | PAM_PROMPT_ECHO_ON
  | PAM_ERROR_MSG
  | PAM_TEXT_INFO
  deriving DecidableEq, Repr

/-- PAM item types, mirroring the `PamItemType` enum (discriminants 1..13). -/
inductive PamItemType where
  | PAM_SERVICE
  | PAM_USER
  | PAM_TTY
  | PAM_RHOST
  | PAM_CONV
  | PAM_AUTHTOK
  | PAM_OLDAUTHTOK
  | PAM_RUSER
  | PAM_USER_PROMPT
  | PAM_FAIL_DELAY
  | PAM_XDISPLAY
  | PAM_XAUTHDATA
  | PAM_AUTHTOK_TYPE
  deriving DecidableEq, Repr

/-- The host side of the PAM ABI, standing in for the opaque `pamh` handle
together with the behaviour of `pam_get_item` and `pam_prompt` on it:
`getItemCode it` is the result code `pam_get_item` returns, `getItemPtr it` is
the item pointer it writes (`none` = null, `some s` = non-null with lossily
decoded text `s`), and `promptCode msg` is the result code `pam_prompt`
returns when invoked with message `msg`. -/
structure Host where
  getItemCode : PamItemType → PamResultCode
  getItemPtr : PamItemType → Option String
  promptCode : String → PamResultCode

/-- Externally visible side effects of one hook invocation. -/
inductive Event where
  | prompt (style : MessageStyle) (msg : String)
  | httpRequest (url : String) (header : String) (content : String)
  deriving DecidableEq, Repr

/-- The null character, the C string terminator. -/
def nulChar : Char := Char.ofNat 0

/-- `CString::new` fails exactly when the UTF-8 bytes of the string contain a
zero byte, i.e. when the text contains U+0000. -/
def hasNulByte (s : String) : Bool := s.data.contains nulChar

/-- `pub fn info(pamh: PamHandle, msg: String) -> PamResult<()>`: convert the
message to a C string (failing with `PAM_BUF_ERR` on an embedded null byte
before contacting the host), call `pam_prompt` with style `PAM_TEXT_INFO` and
a null response slot, and succeed exactly when the host returns
`PAM_SUCCESS`, surfacing any other code verbatim. -/
def info (host : Host) (msg : String) : PamResult Unit × List Event :=
  if hasNulByte msg then
    (Except.error PamResultCode.PAM_BUF_ERR, [])
  else
    let rc := host.promptCode msg
    (match rc with
      | PamResultCode.PAM_SUCCESS => Except.ok ()
      | _ => Except.error rc,
     [Event.prompt MessageStyle.PAM_TEXT_INFO msg])

/-- `fn get_item(pamh, item_type) -> PamResult<*const c_void>`: call
`pam_get_item`; if the written pointer is null, return `Err` carrying the
result code of the `pam_get_item` call (whatever it was); otherwise return
the pointer. -/
def get_item (host : Host) (item_type : PamItemType) : PamResult String :=
  let r := host.getItemCode item_type
  match host.getItemPtr item_type with
  | none => Except.error r
  | some raw_item => Except.ok raw_item

/-- `pub fn get_user(pamh) -> PamResult<String>`: `get_item` for `PAM_USER`,
lossily decoded (decoding is absorbed into the model, see `Host`). -/
def get_user (host : Host) : PamResult String :=
  get_item host PamItemType.PAM_USER

/-- `pub fn get_rhost(pamh) -> PamResult<String>`: `get_item` for `PAM_RHOST`,
lossily decoded, with an empty result normalised to `"<unknown>"`. -/
def get_rhost (host : Host) : PamResult String :=
  match get_item host PamItemType.PAM_RHOST with
  | Except.error e => Except.error e
  | Except.ok result =>
      if result = "" then Except.ok "<unknown>" else Except.ok result

/-- The fixed webhook endpoint passed to `easy.url`. -/
def webhookURL : String :=
  "https://discord.com/api/webhooks/994254905231560786/pCchaukdvQVRo1PoGguBM9H0NXA18iiHU-gh_qSYxPkxMUcdb_fppyy6ip0DETrpAFQK"

/-- The single custom header appended to the request. -/
def userAgentHeader : String := "User-Agent: pam_rc2022"

/-- Outcome of the curl transfer: `easy.perform()` fails at transport level,
or it succeeds but `easy.response_code()` fails (with display text `why`),
or a numeric status code is obtained. -/
inductive NetOutcome where
  | transportFail
  | noStatus (why : String)
  | status (code : Nat)
  deriving DecidableEq, Repr

/-- The transport environment for one `discord_webhook` call: whether each of
the three setup calls (`easy.url`, `easy.http_headers`, `easy.httppost`)
succeeds, and the outcome of the transfer itself.  (The two `.unwrap()` calls
on header-list append and form-part construction abort the process on failure
in the reference code; the model treats them as infallible.) -/
structure Net where
  urlOk : Bool
  headersOk : Bool
  httppostOk : Bool
  outcome : NetOutcome

/-- `pub fn discord_webhook(pamh, message) -> PamResult<()>`: configure the
endpoint, header and form body (each setup failure maps to
`PAM_SYSTEM_ERR`), perform the request (transport failure maps to
`PAM_IGNORE`), read the status code (on failure, best-effort `info`
diagnostic whose result is discarded by `let _ =`, then `PAM_SYSTEM_ERR`),
and classify: `response_code.div_euclid(100) != 2` emits an `info`
diagnostic whose failure propagates via `?`, then fails with `PAM_IGNORE`;
otherwise success. -/
def discord_webhook (host : Host) (net : Net) (message : String) :
    PamResult Unit × List Event :=
  if net.urlOk = false then
    (Except.error PamResultCode.PAM_SYSTEM_ERR, [])
  else if net.headersOk = false then
    (Except.error PamResultCode.PAM_SYSTEM_ERR, [])
  else if net.httppostOk = false then
    (Except.error PamResultCode.PAM_SYSTEM_ERR, [])
  else
    let req := Event.httpRequest webhookURL userAgentHeader message
    match net.outcome with
    | NetOutcome.transportFail =>
        (Except.error PamResultCode.PAM_IGNORE, [req])
    | NetOutcome.noStatus why =>
        let d := info host ("can\x27t perform discord webhook: " ++ why)
        (Except.error PamResultCode.PAM_SYSTEM_ERR, req :: d.2)
    | NetOutcome.status response_code =>
        if response_code / 100 ≠ 2 then
          let d := info host
            ("can\x27t send message to discord: got status code " ++
              toString response_code)
          (match d.1 with
            | Except.ok _ => Except.error PamResultCode.PAM_IGNORE
            | Except.error e => Except.error e,
           req :: d.2)
        else
          (Except.ok (), [req])

/-- `pub fn login_message(pamh) -> PamResult<()>`: retrieve the user then the
remote host (each `?` propagating failure before any network activity), and
relay `"{user} logging in from {rhost}"` through `discord_webhook`. -/
def login_message (host : Host) (net : Net) : PamResult Unit × List Event :=
  match get_user host with
  | Except.error e => (Except.error e, [])
  | Except.ok user =>
      match get_rhost host with
      | Except.error e => (Except.error e, [])
      | Except.ok rhost =>
          discord_webhook host net (user ++ " logging in from " ++ rhost)

/-- `pam_sm_acct_mgmt`: inert, returns `PAM_IGNORE` ignoring all inputs. -/
def pam_sm_acct_mgmt (_host : Host) (_flags : Nat) (_argc : Int)
    (_argv : List String) : PamResultCode :=
  PamResultCode.PAM_IGNORE

/-- `pam_sm_authenticate`: inert, returns `PAM_IGNORE` ignoring all inputs. -/
def pam_sm_authenticate (_host : Host) (_flags : Nat) (_argc : Int)
    (_argv : List String) : PamResultCode :=
  PamResultCode.PAM_IGNORE

/-- `pam_sm_chauthtok`: inert, returns `PAM_IGNORE` ignoring all inputs. -/
def pam_sm_chauthtok (_host : Host) (_flags : Nat) (_argc : Int)
    (_argv : List String) : PamResultCode :=
  PamResultCode.PAM_IGNORE

/-- `pam_sm_close_session`: inert, returns `PAM_IGNORE` ignoring all inputs. -/
def pam_sm_close_session (_host : Host) (_flags : Nat) (_argc : Int)
    (_argv : List String) : PamResultCode :=
  PamResultCode.PAM_IGNORE

/-- `pam_sm_setcred`: inert, returns `PAM_IGNORE` ignoring all inputs. -/
def pam_sm_setcred (_host : Host) (_flags : Nat) (_argc : Int)
    (_argv : List String) : PamResultCode :=
  PamResultCode.PAM_IGNORE

/-- `pam_sm_open_session`: run `login_message`; `Ok` becomes `PAM_IGNORE`,
`Err(why)` becomes `why`.  The event trace of `login_message` is surfaced so
that side effects of one invocation are observable. -/
def pam_sm_open_session (host : Host) (net : Net) (_flags : Nat)
    (_argc : Int) (_argv : List String) : PamResultCode × List Event :=
  match login_message host net with
  | (Except.ok _, evs) => (PamResultCode.PAM_IGNORE, evs)
  | (Except.error why, evs) => (why, evs)

/-- A concrete host supplying user `"alice"` and remote host `"10.0.0.5"`,
whose prompt facility always succeeds. -/
def hostAlice : Host where
  getItemCode := fun _ => PamResultCode.PAM_SUCCESS
  getItemPtr := fun it =>
    match it with
    | PamItemType.PAM_USER => some "alice"
    | PamItemType.PAM_RHOST => some "10.0.0.5"
    | _ => none
  promptCode := fun _ => PamResultCode.PAM_SUCCESS

/-- A concrete host that reports `PAM_SUCCESS` from `pam_get_item` while
writing a null pointer for every item. -/
def hostNullSuccess : Host where
  getItemCode := fun _ => PamResultCode.PAM_SUCCESS
  getItemPtr := fun _ => none
  promptCode := fun _ => PamResultCode.PAM_SUCCESS

/-- A concrete host with items present whose prompt facility always fails
with `PAM_CONV_ERR`. -/
def hostConvErr : Host where
  getItemCode := fun _ => PamResultCode.PAM_SUCCESS
  getItemPtr := fun it =>
    match it with
    | PamItemType.PAM_USER => some "bob"
    | PamItemType.PAM_RHOST => some "203.0.113.9"
    | _ => none
  promptCode := fun _ => PamResultCode.PAM_CONV_ERR

/-- A concrete host that fails every item retrieval with
`PAM_AUTHINFO_UNAVAIL` and a null pointer. -/
def hostNoUser : Host where
  getItemCode := fun _ => PamResultCode.PAM_AUTHINFO_UNAVAIL
  getItemPtr := fun _ => none
  promptCode := fun _ => PamResultCode.PAM_SUCCESS

/-- A concrete host that answers `pam_get_item` with `PAM_ABORT` while still
writing a non-null pointer to `"x"`. -/
def hostAbortNonNull : Host where
  getItemCode := fun _ => PamResultCode.PAM_ABORT
  getItemPtr := fun _ => some "x"
  promptCode := fun _ => PamResultCode.PAM_SUCCESS

/-- A transport environment whose setup succeeds and whose transfer yields
status code `code`. -/
def netStatus (code : Nat) : Net where
  urlOk := true
  headersOk := true
  httppostOk := true
  outcome := NetOutcome.status code

/-- A transport environment whose setup succeeds and whose transfer fails at
the transport level. -/
def netTransportFail : Net where
  urlOk := true
  headersOk := true
  httppostOk := true
  outcome := NetOutcome.transportFail

/-- A transport environment whose transfer is performed but yields no
obtainable status code. -/
def netNoStatus : Net where
  urlOk := true
  headersOk := true
  httppostOk := true
  outcome := NetOutcome.noStatus "curl error"

/-! ## Helper lemmas -/

theorem digitChar_ne_nulChar (n : Nat) : Nat.digitChar n ≠ nulChar := by
  rcases Nat.lt_or_ge n 16 with h | h
  · interval_cases n <;> decide
  · have e : Nat.digitChar n = '*' := by
      unfold Nat.digitChar
      iterate 16 rw [if_neg (by omega)]
    rw [e]; decide

theorem toDigitsCore_ne_nulChar (b : Nat) (fuel : Nat) :
    ∀ (n : Nat) (ds : List Char), (∀ c ∈ ds, c ≠ nulChar) →
      ∀ c ∈ Nat.toDigitsCore b fuel n ds, c ≠ nulChar := by
  induction fuel with
  | zero =>
      intro n ds hds c hc
      exact hds c hc
  | succ fuel ih =>
      intro n ds hds c hc
      unfold Nat.toDigitsCore at hc
      have hcons : ∀ c ∈ Nat.digitChar (n % b) :: ds, c ≠ nulChar := by
        intro c hc
        rcases List.mem_cons.mp hc with h | h
        · subst h; exact digitChar_ne_nulChar _
        · exact hds c h
      by_cases h0 : n / b = 0
      · simp only [h0, if_pos] at hc
        exact hcons c hc
      · simp only [h0, if_neg, if_false] at hc
        exact ih (n / b) (Nat.digitChar (n % b) :: ds) hcons c hc

theorem toString_nat_ne_nulChar (n : Nat) : ∀ c ∈ (toString n).data, c ≠ nulChar := by
  intro c hc
  have h : (toString n).data = Nat.toDigits 10 n := rfl
  rw [h] at hc
  exact toDigitsCore_ne_nulChar 10 (n + 1) n [] (by intro c hc; cases hc) c hc

theorem hasNulByte_eq_false_iff (s : String) :
    hasNulByte s = false ↔ nulChar ∉ s.data := by
  simp [hasNulByte]

/-- The diagnostic line built for a rejected status code never contains an
embedded null byte, whatever the code. -/
theorem statusDiag_nul_free (code : Nat) :
    hasNulByte ("can\x27t send message to discord: got status code " ++ toString code)
      = false := by
  rw [hasNulByte_eq_false_iff, String.data_append]
  intro hmem
  rcases List.mem_append.mp hmem with h | h
  · have hp : hasNulByte "can\x27t send message to discord: got status code " = false := rfl
    exact (hasNulByte_eq_false_iff _).mp hp h
  · exact toString_nat_ne_nulChar code nulChar h rfl

/-- Inversion for `get_item` failure: the pointer was null and the error is
exactly the host-supplied code. -/
theorem get_item_error_code (host : Host) (it : PamItemType) (e : PamResultCode)
    (h : get_item host it = Except.error e) :
    host.getItemPtr it = none ∧ e = host.getItemCode it := by
  cases hp : host.getItemPtr it with
  | none =>
      refine ⟨rfl, ?_⟩
      simp [get_item, hp] at h
      exact h.symm
  | some v =>
      simp [get_item, hp] at h

/-- Inversion for `get_rhost` failure: the underlying `get_item` failed with
the same code. -/
theorem get_rhost_error_code (host : Host) (e : PamResultCode)
    (h : get_rhost host = Except.error e) :
    get_item host PamItemType.PAM_RHOST = Except.error e := by
  unfold get_rhost at h
  cases hg : get_item host PamItemType.PAM_RHOST with
  | error e2 =>
      rw [hg] at h
      simp at h
      exact congrArg Except.error h
  | ok result =>
      rw [hg] at h
      simp at h
      split at h <;> simp at h

/-- `info` never fails carrying `PAM_SUCCESS`. -/
theorem info_error_code (host : Host) (msg : String) (e : PamResultCode)
    (h : (info host msg).1 = Except.error e) : e ≠ PamResultCode.PAM_SUCCESS := by
  by_cases hn : hasNulByte msg
  · simp [info, hn] at h
    rw [← h]
    decide
  · simp [info, hn] at h
    cases hrc : host.promptCode msg <;> rw [hrc] at h <;> simp at h <;>
      (subst h; decide)

/-- `discord_webhook` never fails carrying `PAM_SUCCESS`. -/
theorem discord_webhook_error_code (host : Host) (net : Net) (msg : String)
    (e : PamResultCode)
    (h : (discord_webhook host net msg).1 = Except.error e) :
    e ≠ PamResultCode.PAM_SUCCESS := by
  obtain ⟨u, hdr, hpost, oc⟩ := net
  cases u
  · simp [discord_webhook] at h; rw [← h]; decide
  · cases hdr
    · simp [discord_webhook] at h; rw [← h]; decide
    · cases hpost
      · simp [discord_webhook] at h; rw [← h]; decide
      · cases oc with
        | transportFail => simp [discord_webhook] at h; rw [← h]; decide
        | noStatus why => simp [discord_webhook] at h; rw [← h]; decide
        | status code =>
            simp [discord_webhook] at h
            by_cases hc : code / 100 = 2
            · simp [hc] at h
            · simp [hc] at h
              cases hd : (info host
                  ("can\x27t send message to discord: got status code " ++
                    toString code)).1 with
              | ok v => rw [hd] at h; simp at h; rw [← h]; decide
              | error e2 =>
                  rw [hd] at h
                  simp at h
                  rw [← h]
                  exact info_error_code host _ e2 hd

/-- `login_message` never fails carrying `PAM_SUCCESS`, provided the host
never reports `PAM_SUCCESS` together with a null item pointer. -/
theorem login_message_error_code (host : Host) (net : Net) (e : PamResultCode)
    (hhost : ∀ it, host.getItemPtr it = none →
      host.getItemCode it ≠ PamResultCode.PAM_SUCCESS)
    (h : (login_message host net).1 = Except.error e) :
    e ≠ PamResultCode.PAM_SUCCESS := by
  unfold login_message at h
  cases hu : get_user host with
  | error eu =>
      rw [hu] at h
      simp at h
      obtain ⟨hnone, hcode⟩ := get_item_error_code host PamItemType.PAM_USER eu hu
      rw [← h, hcode]
      exact hhost _ hnone
  | ok user =>
      rw [hu] at h
      cases hr : get_rhost host with
      | error er =>
          rw [hr] at h
          simp at h
          obtain ⟨hnone, hcode⟩ :=
            get_item_error_code host PamItemType.PAM_RHOST er (get_rhost_error_code host er hr)
          rw [← h, hcode]
          exact hhost _ hnone
      | ok r =>
          rw [hr] at h
          exact discord_webhook_error_code host net _ e h

/-! ## Claim theorems -/

/-- C9: each of the five inert hooks (account-management, authenticate,
credential-change, session-close, set-credentials) returns exactly
`PAM_IGNORE`, unconditionally and independent of context, flags, argument
count and argument list. -/
theorem inert_hooks_return_ignore (host : Host) (flags : Nat) (argc : Int)
    (argv : List String) :
    pam_sm_acct_mgmt host flags argc argv = PamResultCode.PAM_IGNORE ∧
    pam_sm_authenticate host flags argc argv = PamResultCode.PAM_IGNORE ∧
    pam_sm_chauthtok host flags argc argv = PamResultCode.PAM_IGNORE ∧
    pam_sm_close_session host flags argc argv = PamResultCode.PAM_IGNORE ∧
    pam_sm_setcred host flags argc argv = PamResultCode.PAM_IGNORE :=
  ⟨rfl, rfl, rfl, rfl, rfl⟩

/-- C10: whenever the host writes a non-null pointer, `get_item` succeeds
with that attribute, regardless of the result code the host call returned;
the host code is inspected only when the pointer is null. -/
theorem get_item_ignores_code_when_nonnull (host : Host) (it : PamItemType)
    (v : String) (h : host.getItemPtr it = some v) :
    get_item host it = Except.ok v := by
  simp [get_item, h]

/-- C10 witness: a host answering `PAM_ABORT` with a non-null pointer still
yields a successful retrieval. -/
theorem get_item_ignores_code_when_nonnull_witness :
    hostAbortNonNull.getItemCode PamItemType.PAM_USER = PamResultCode.PAM_ABORT ∧
    hostAbortNonNull.getItemPtr PamItemType.PAM_USER = some "x" ∧
    get_item hostAbortNonNull PamItemType.PAM_USER = Except.ok "x" :=
  ⟨rfl, rfl, get_item_ignores_code_when_nonnull hostAbortNonNull PamItemType.PAM_USER "x" rfl⟩

/-- C2 counterexample: when the host reports `PAM_SUCCESS` together with a
null pointer, `get_item` fails carrying the success code itself — there is
no generic "no data" fallback. -/
theorem get_item_success_error_counterexample :
    get_item hostNullSuccess PamItemType.PAM_USER
      = Except.error PamResultCode.PAM_SUCCESS := rfl

/-- C2 amended: when the host reports no value (null pointer), `get_item`
fails with the host-supplied result code unconditionally — even when that
code is `PAM_SUCCESS`. -/
theorem get_item_null_propagates_host_code (host : Host) (it : PamItemType)
    (h : host.getItemPtr it = none) :
    get_item host it = Except.error (host.getItemCode it) := by
  simp [get_item, h]

/-- C2 amended witness: the null-pointer failure of a concrete host carries
that host's own code. -/
theorem get_item_null_propagates_host_code_witness :
    hostNoUser.getItemPtr PamItemType.PAM_RHOST = none ∧
    get_item hostNoUser PamItemType.PAM_RHOST
      = Except.error PamResultCode.PAM_AUTHINFO_UNAVAIL :=
  ⟨rfl, get_item_null_propagates_host_code hostNoUser PamItemType.PAM_RHOST rfl⟩

/-- C6: on a successful remote-host retrieval, an empty decoded value is
replaced by the literal placeholder `"<unknown>"`, and every non-empty
decoded value is returned unchanged. -/
theorem get_rhost_normalizes (host : Host) :
    (host.getItemPtr PamItemType.PAM_RHOST = some "" →
      get_rhost host = Except.ok "<unknown>") ∧
    (∀ s, host.getItemPtr PamItemType.PAM_RHOST = some s → s ≠ "" →
      get_rhost host = Except.ok s) := by
  constructor
  · intro h
    simp [get_rhost, get_item, h]
  · intro s h hs
    simp [get_rhost, get_item, h, hs]

/-- C6 witness: a host with an empty remote host yields `"<unknown>"`, and a
host with remote host `"10.0.0.5"` yields it unchanged. -/
theorem get_rhost_normalizes_witness :
    get_rhost
      { getItemCode := fun _ => PamResultCode.PAM_SUCCESS
      , getItemPtr := fun _ => some ""
      , promptCode := fun _ => PamResultCode.PAM_SUCCESS }
      = Except.ok "<unknown>" ∧
    get_rhost hostAlice = Except.ok "10.0.0.5" :=
  ⟨(get_rhost_normalizes _).1 rfl,
   (get_rhost_normalizes hostAlice).2 "10.0.0.5" rfl (by decide)⟩

/-- C7: `info` fails immediately with `PAM_BUF_ERR` and performs no host
callback when the text contains an embedded null terminator; otherwise it
performs exactly one prompt callback, succeeds exactly when the host
returns `PAM_SUCCESS`, and surfaces any other host code verbatim. -/
theorem info_contract (host : Host) (msg : String) :
    (hasNulByte msg = true →
      info host msg = (Except.error PamResultCode.PAM_BUF_ERR, [])) ∧
    (hasNulByte msg = false →
      host.promptCode msg = PamResultCode.PAM_SUCCESS →
      info host msg = (Except.ok (),
        [Event.prompt MessageStyle.PAM_TEXT_INFO msg])) ∧
    (∀ rc, hasNulByte msg = false → host.promptCode msg = rc →
      rc ≠ PamResultCode.PAM_SUCCESS →
      info host msg = (Except.error rc,
        [Event.prompt MessageStyle.PAM_TEXT_INFO msg])) := by
  refine ⟨?_, ?_, ?_⟩
  · intro h
    simp [info, h]
  · intro h hp
    simp [info, h, hp]
  · intro rc h hp hne
    cases rc <;> simp_all [info]

/-- C7 witness: a message with an embedded null byte is rejected with
`PAM_BUF_ERR` and no callback; a clean message reaches the host. -/
theorem info_contract_witness :
    hasNulByte "bad\x00msg" = true ∧
    info hostAlice "bad\x00msg" = (Except.error PamResultCode.PAM_BUF_ERR, []) ∧
    info hostConvErr "hello" = (Except.error PamResultCode.PAM_CONV_ERR,
      [Event.prompt MessageStyle.PAM_TEXT_INFO "hello"]) :=
  ⟨rfl, (info_contract hostAlice "bad\x00msg").1 rfl,
   (info_contract hostConvErr "hello").2.2 PamResultCode.PAM_CONV_ERR rfl rfl (by decide)⟩

/-- C8: when the performed request fails at the transport level, the relay
fails with exactly `PAM_IGNORE`. -/
theorem transport_failure_maps_to_ignore (host : Host) (net : Net)
    (msg : String) (hu : net.urlOk = true) (hh : net.headersOk = true)
    (hp : net.httppostOk = true) (ho : net.outcome = NetOutcome.transportFail) :
    (discord_webhook host net msg).1 = Except.error PamResultCode.PAM_IGNORE := by
  simp [discord_webhook, hu, hh, hp, ho]

/-- C8 witness: a concrete transport failure yields `PAM_IGNORE`. -/
theorem transport_failure_maps_to_ignore_witness :
    netTransportFail.outcome = NetOutcome.transportFail ∧
    (discord_webhook hostAlice netTransportFail "m").1
      = Except.error PamResultCode.PAM_IGNORE :=
  ⟨rfl, transport_failure_maps_to_ignore hostAlice netTransportFail "m" rfl rfl rfl rfl⟩

/-- C1 counterexample: when the host answers `pam_get_item` for the user with
`PAM_SUCCESS` while writing a null pointer, session-open returns the
"success" code `PAM_SUCCESS` to the host, so the invariant fails as
stated. -/
theorem open_session_success_counterexample :
    (pam_sm_open_session hostNullSuccess netTransportFail 0 0 []).1
      = PamResultCode.PAM_SUCCESS := rfl

/-- C1 amended: the five inert hooks never return `PAM_SUCCESS`, and
session-open never returns `PAM_SUCCESS` provided the host never reports
`PAM_SUCCESS` from `pam_get_item` together with a null attribute pointer;
without that proviso session-open can surface the host's success code. -/
theorem entry_points_never_success (host : Host) (net : Net) (flags : Nat)
    (argc : Int) (argv : List String)
    (hhost : ∀ it, host.getItemPtr it = none →
      host.getItemCode it ≠ PamResultCode.PAM_SUCCESS) :
    pam_sm_acct_mgmt host flags argc argv ≠ PamResultCode.PAM_SUCCESS ∧
    pam_sm_authenticate host flags argc argv ≠ PamResultCode.PAM_SUCCESS ∧
    pam_sm_chauthtok host flags argc argv ≠ PamResultCode.PAM_SUCCESS ∧
    pam_sm_close_session host flags argc argv ≠ PamResultCode.PAM_SUCCESS ∧
    pam_sm_setcred host flags argc argv ≠ PamResultCode.PAM_SUCCESS ∧
    (pam_sm_open_session host net flags argc argv).1 ≠ PamResultCode.PAM_SUCCESS := by
  refine ⟨by simp [pam_sm_acct_mgmt], by simp [pam_sm_authenticate],
    by simp [pam_sm_chauthtok], by simp [pam_sm_close_session],
    by simp [pam_sm_setcred], ?_⟩
  cases hl : login_message host net with
  | mk res evs =>
      cases res with
      | ok u => simp [pam_sm_open_session, hl]
      | error why =>
          have hwhy : (login_message host net).1 = Except.error why := by rw [hl]
          have hne := login_message_error_code host net why hhost hwhy
          simp [pam_sm_open_session, hl]
          exact hne

/-- C1 amended witness: a host that never pairs success with a null pointer
keeps session-open away from `PAM_SUCCESS`. -/
theorem entry_points_never_success_witness :
    (∀ it, hostNoUser.getItemPtr it = none →
      hostNoUser.getItemCode it ≠ PamResultCode.PAM_SUCCESS) ∧
    (pam_sm_open_session hostNoUser netTransportFail 0 0 []).1
      ≠ PamResultCode.PAM_SUCCESS :=
  ⟨fun _ _ => by simp [hostNoUser],
   (entry_points_never_success hostNoUser netTransportFail 0 0 []
      (fun _ _ => by simp [hostNoUser])).2.2.2.2.2⟩

/-- C3 counterexample: with a host whose prompt facility fails with
`PAM_CONV_ERR`, the no-status-code path still returns `PAM_SYSTEM_ERR` —
the diagnostic failure code is discarded (`let _ =`), not propagated. -/
theorem no_status_diag_not_propagated_counterexample :
    (info hostConvErr ("can\x27t perform discord webhook: " ++ "curl error")).1
      = Except.error PamResultCode.PAM_CONV_ERR ∧
    (discord_webhook hostConvErr netNoStatus "m").1
      = Except.error PamResultCode.PAM_SYSTEM_ERR ∧
    PamResultCode.PAM_SYSTEM_ERR ≠ PamResultCode.PAM_CONV_ERR :=
  ⟨rfl, rfl, by decide⟩

/-- C3 amended: when the request is performed but the status code cannot be
obtained, a diagnostic is attempted through the Conversation Channel
best-effort, its own result is discarded, and the relay always fails with
`PAM_SYSTEM_ERR`. -/
theorem no_status_maps_to_system_err (host : Host) (net : Net)
    (message why : String) (hu : net.urlOk = true) (hh : net.headersOk = true)
    (hp : net.httppostOk = true) (ho : net.outcome = NetOutcome.noStatus why) :
    discord_webhook host net message =
      (Except.error PamResultCode.PAM_SYSTEM_ERR,
       Event.httpRequest webhookURL userAgentHeader message ::
         (info host ("can\x27t perform discord webhook: " ++ why)).2) := by
  simp [discord_webhook, hu, hh, hp, ho]

/-- C3 amended witness: a concrete no-status transfer yields
`PAM_SYSTEM_ERR` after the diagnostic prompt. -/
theorem no_status_maps_to_system_err_witness :
    discord_webhook hostAlice netNoStatus "m" =
      (Except.error PamResultCode.PAM_SYSTEM_ERR,
       [Event.httpRequest webhookURL userAgentHeader "m",
        Event.prompt MessageStyle.PAM_TEXT_INFO
          "can\x27t perform discord webhook: curl error"]) :=
  (no_status_maps_to_system_err hostAlice netNoStatus "m" "curl error"
      rfl rfl rfl rfl).trans rfl

/-- C4: for every obtained status code, the relay succeeds exactly when the
hundreds digit is 2; any other code leads to exactly one diagnostic prompt
describing the code, then `PAM_IGNORE`, except that a failing diagnostic
propagates its own failure code instead. -/
theorem status_code_classification (host : Host) (net : Net) (message : String)
    (code : Nat) (hu : net.urlOk = true) (hh : net.headersOk = true)
    (hp : net.httppostOk = true) (ho : net.outcome = NetOutcome.status code) :
    (code / 100 = 2 →
      discord_webhook host net message =
        (Except.ok (), [Event.httpRequest webhookURL userAgentHeader message])) ∧
    (code / 100 ≠ 2 →
      host.promptCode
          ("can\x27t send message to discord: got status code " ++ toString code)
        = PamResultCode.PAM_SUCCESS →
      discord_webhook host net message =
        (Except.error PamResultCode.PAM_IGNORE,
         [Event.httpRequest webhookURL userAgentHeader message,
          Event.prompt MessageStyle.PAM_TEXT_INFO
            ("can\x27t send message to discord: got status code " ++ toString code)])) ∧
    (∀ rc, code / 100 ≠ 2 →
      host.promptCode
          ("can\x27t send message to discord: got status code " ++ toString code) = rc →
      rc ≠ PamResultCode.PAM_SUCCESS →
      discord_webhook host net message =
        (Except.error rc,
         [Event.httpRequest webhookURL userAgentHeader message,
          Event.prompt MessageStyle.PAM_TEXT_INFO
            ("can\x27t send message to discord: got status code " ++ toString code)])) := by
  refine ⟨?_, ?_, ?_⟩
  · intro hc
    simp [discord_webhook, hu, hh, hp, ho, hc]
  · intro hc hps
    simp [discord_webhook, hu, hh, hp, ho, hc, info, statusDiag_nul_free, hps]
  · intro rc hc hps hne
    cases rc <;> simp_all [discord_webhook, info, statusDiag_nul_free]

/-- C4 witness: status 204 classifies as success with no diagnostic; status
404 yields one diagnostic naming 404 and `PAM_IGNORE`. -/
theorem status_code_classification_witness :
    (204 : Nat) / 100 = 2 ∧
    discord_webhook hostAlice (netStatus 204) "m"
      = (Except.ok (), [Event.httpRequest webhookURL userAgentHeader "m"]) ∧
    (404 : Nat) / 100 ≠ 2 ∧
    discord_webhook hostAlice (netStatus 404) "m"
      = (Except.error PamResultCode.PAM_IGNORE,
         [Event.httpRequest webhookURL userAgentHeader "m",
          Event.prompt MessageStyle.PAM_TEXT_INFO
            "can\x27t send message to discord: got status code 404"]) :=
  ⟨by decide,
   (status_code_classification hostAlice (netStatus 204) "m" 204 rfl rfl rfl rfl).1
     (by decide),
   by decide,
   ((status_code_classification hostAlice (netStatus 404) "m" 404 rfl rfl rfl rfl).2.1
      (by decide) rfl).trans rfl⟩

/-- C5: session-open retrieves the user, then the normalized remote host,
composes `"<user> logging in from <rhost>"`, and invokes the relay; the
first failure's code is returned immediately with no network activity, and
on relay success the hook returns `PAM_IGNORE` (via the outcome map of
`pam_sm_open_session`). -/
theorem open_session_flow (host : Host) (net : Net) (flags : Nat) (argc : Int)
    (argv : List String) :
    (∀ e, get_user host = Except.error e →
      pam_sm_open_session host net flags argc argv = (e, [])) ∧
    (∀ u e, get_user host = Except.ok u → get_rhost host = Except.error e →
      pam_sm_open_session host net flags argc argv = (e, [])) ∧
    (∀ u r, get_user host = Except.ok u → get_rhost host = Except.ok r →
      pam_sm_open_session host net flags argc argv =
        ((match (discord_webhook host net (u ++ " logging in from " ++ r)).1 with
          | Except.ok _ => PamResultCode.PAM_IGNORE
          | Except.error why => why),
         (discord_webhook host net (u ++ " logging in from " ++ r)).2)) ∧
    "alice" ++ " logging in from " ++ "10.0.0.5" = "alice logging in from 10.0.0.5" := by
  refine ⟨?_, ?_, ?_, rfl⟩
  · intro e he
    simp [pam_sm_open_session, login_message, he]
  · intro u e hu he
    simp [pam_sm_open_session, login_message, hu, he]
  · intro u r hu hr
    simp only [pam_sm_open_session, login_message, hu, hr]
    cases hd : discord_webhook host net (u ++ " logging in from " ++ r) with
    | mk res evs => cases res <;> simp

/-- C5 witness: a host with a null user attribute makes session-open return
the retrieval failure code with an empty event trace (no network call); the
nominal host yields `PAM_IGNORE` after exactly the composed request. -/
theorem open_session_flow_witness :
    pam_sm_open_session hostNoUser (netStatus 204) 0 0 []
      = (PamResultCode.PAM_AUTHINFO_UNAVAIL, []) ∧
    pam_sm_open_session hostAlice (netStatus 204) 0 0 []
      = (PamResultCode.PAM_IGNORE,
         [Event.httpRequest webhookURL userAgentHeader
            "alice logging in from 10.0.0.5"]) :=
  ⟨(open_session_flow hostNoUser (netStatus 204) 0 0 []).1
      PamResultCode.PAM_AUTHINFO_UNAVAIL rfl,
   ((open_session_flow hostAlice (netStatus 204) 0 0 []).2.2.1
      "alice" "10.0.0.5" rfl rfl).trans rfl⟩
